import Mathlib

/-!
Verification development for the PROS ADI (Analog/Digital I/O) interface,
src/include/pros/adi.h.

The repository contains only the public header: enum adi_port_config_e, the
declarations of the port-level operations (adi_port_get_config, ...), the
analog / digital / motor subsystems, and the encoder / ultrasonic derived
objects, together with their documented contracts (EINVAL on a bad port,
PROS_ERR sentinel returns, and so on).  The stateful engine that realizes
those contracts is not part of the repository, so the definitions below model
it from the specification document (the "ADI Port Engine"): 8 port records,
port-identifier resolution at the boundary, and the operations layered on
top.  Enum names, function names and signatures follow the header.
-/

namespace PROS

/-- C enum adi_port_config_e from src/include/pros/adi.h (lines 29-53).
E_ADI_TYPE_UNDEFINED is the startup configuration of every port; the C value
E_ADI_ERR is not a configuration but the error sentinel, modelled separately
by the AdiError / cValue view below. -/
inductive adi_port_config_e where
  | E_ADI_ANALOG_IN
  | E_ADI_ANALOG_OUT
  | E_ADI_DIGITAL_IN
  | E_ADI_DIGITAL_OUT
  | E_ADI_SMART_BUTTON
  | E_ADI_SMART_POT
  | E_ADI_LEGACY_BUTTON
  | E_ADI_LEGACY_POT
  | E_ADI_LEGACY_LINE_SENSOR
  | E_ADI_LEGACY_LIGHT_SENSOR
  | E_ADI_LEGACY_GYRO
  | E_ADI_LEGACY_ACCELEROMETER
  | E_ADI_LEGACY_SERVO
  | E_ADI_LEGACY_PWM
  | E_ADI_LEGACY_ENCODER
  | E_ADI_LEGACY_ULTRASONIC
  | E_ADI_TYPE_UNDEFINED
  deriving DecidableEq, Repr

/-- Modelled from the spec: error kinds of section 7 (ERROR HANDLING DESIGN):
InvalidPort (identifier outside 1-8 / letter ranges, or a stale handle),
NotConfigured (operation requires a configuration the port does not hold),
PortInUse (claiming a port already owned by an active derived object).
At the C level every one of these surfaces as PROS_ERR with errno EINVAL. -/
inductive AdiError where
  | InvalidPort
  | NotConfigured
  | PortInUse
  deriving DecidableEq, Repr

/-- PROS_ERR, the int32 error sentinel of the C API (INT32_MAX). -/
def PROS_ERR : Int := 2147483647

/-- errno value EINVAL, documented by every function in the header. -/
def EINVAL : Int := 22

/-- The errno code each engine error kind surfaces as: the header documents
EINVAL for every error state. -/
def errnoOf : AdiError → Int := fun _ => EINVAL

/-- C-level view of an int32-returning operation: an engine error becomes the
PROS_ERR sentinel. -/
def cValue : Except AdiError Int → Int
  | .ok v => v
  | .error _ => PROS_ERR

/-- Modelled from the spec: one Port record of the data model (section 3):
configuration, last raw or computed value, calibration offset (ANALOG_IN),
last digital state (edge detection on DIGITAL_IN), and the encoder direction
flag.  For a LEGACY_ENCODER port last_value holds the cumulative tick count;
for a LEGACY_ULTRASONIC port it holds the last measured distance in cm. -/
structure Port where
  configuration : adi_port_config_e
  last_value : Int
  calibration_offset : Int
  last_digital_state : Bool
  direction : Bool
  deriving DecidableEq, Repr

/-- A port at startup: UNDEFINED configuration and zeroed values. -/
def Port.initial : Port :=
  { configuration := .E_ADI_TYPE_UNDEFINED
    last_value := 0
    calibration_offset := 0
    last_digital_state := false
    direction := false }

/-- Modelled from the spec: a port is in use when it is owned by an active
encoder, ultrasonic or motor (section 7, PortInUse). -/
def Port.inUse (r : Port) : Prop :=
  r.configuration = .E_ADI_LEGACY_ENCODER ∨
  r.configuration = .E_ADI_LEGACY_ULTRASONIC ∨
  r.configuration = .E_ADI_LEGACY_PWM

instance (r : Port) : Decidable r.inUse := by
  unfold Port.inUse
  infer_instance

/-- Modelled from the spec: the ADI Port Engine state, an array of 8 Port
records (section 4.1). -/
structure EngineState where
  ports : Fin 8 → Port

/-- Engine state at startup: all 8 ports UNDEFINED and zeroed. -/
def EngineState.initial : EngineState := ⟨fun _ => Port.initial⟩

/-- Replace one port record. -/
def setPortRecord (s : EngineState) (i : Fin 8) (r : Port) : EngineState :=
  ⟨Function.update s.ports i r⟩

/-- Modelled from the spec: port resolution (section 4.1).  A port identifier
is an integer 1-8, a lowercase letter a-h (codes 97-104) or an uppercase
letter A-H (codes 65-72); it maps to the zero-based index port-1,
letter - 97, or letter - 65.  Anything else fails with InvalidPort. -/
def resolvePort (port : Nat) : Option (Fin 8) :=
  if h : 1 ≤ port ∧ port ≤ 8 then some ⟨port - 1, by omega⟩
  else if h : 97 ≤ port ∧ port ≤ 104 then some ⟨port - 97, by omega⟩
  else if h : 65 ≤ port ∧ port ≤ 72 then some ⟨port - 65, by omega⟩
  else none

/-- Boundary combinator: resolve the port identifier, fail with InvalidPort
(state untouched) on a bad identifier, otherwise run the operation on the
resolved zero-based index.  Every port-taking operation goes through this,
matching the normalize-at-the-boundary design note of the spec. -/
def withPort (s : EngineState) (port : Nat)
    (k : Fin 8 → Except AdiError α × EngineState) :
    Except AdiError α × EngineState :=
  match resolvePort port with
  | none => (.error .InvalidPort, s)
  | some i => k i

/-- adi_port_get_config: returns the configuration of the port, EINVAL when
the port number is out of range (header lines 88-101). -/
def adi_port_get_config (s : EngineState) (port : Nat) :
    Except AdiError adi_port_config_e × EngineState :=
  withPort s port fun i => (.ok (s.ports i).configuration, s)

/-- adi_port_get_value: returns the value stored for the port, EINVAL when
the port number is out of range (header lines 103-116). -/
def adi_port_get_value (s : EngineState) (port : Nat) :
    Except AdiError Int × EngineState :=
  withPort s port fun i => (.ok (s.ports i).last_value, s)

/-- adi_port_set_config: configures the port as the given sensor type,
returns 1 on success, EINVAL on a bad port (header lines 118-132).
Modelled from the spec: reconfiguring resets the dependent state of the port
(calibration offset, last digital state, tick / distance value, direction). -/
def adi_port_set_config (s : EngineState) (port : Nat)
    (type : adi_port_config_e) : Except AdiError Int × EngineState :=
  withPort s port fun i =>
    (.ok 1, setPortRecord s i
      { configuration := type
        last_value := 0
        calibration_offset := 0
        last_digital_state := false
        direction := false })

/-- adi_port_set_value: sets the value for the port, returns 1 on success,
EINVAL on a bad port (header lines 134-152).  The header checks only the
port; behavior on a non-output configuration is undefined by design, so the
model stores the value for any valid port. -/
def adi_port_set_value (s : EngineState) (port : Nat) (value : Int) :
    Except AdiError Int × EngineState :=
  withPort s port fun i =>
    (.ok 1, setPortRecord s i { s.ports i with last_value := value })

/-- Modelled from the spec: the pin_mode lookup table, mapping the legacy
mode constants INPUT=0, OUTPUT=1, INPUT_ANALOG=2, OUTPUT_ANALOG=3 (header
lines 174-190) to configurations. -/
def pinModeToConfig (mode : Nat) : Option adi_port_config_e :=
  match mode with
  | 0 => some .E_ADI_DIGITAL_IN
  | 1 => some .E_ADI_DIGITAL_OUT
  | 2 => some .E_ADI_ANALOG_IN
  | 3 => some .E_ADI_ANALOG_OUT
  | _ => none

/-- adi_pin_mode: configures the port as an input or output, equivalent to
adi_port_set_config through the legacy mode table; EINVAL on a bad port
(header lines 355-369). -/
def adi_pin_mode (s : EngineState) (port : Nat) (mode : Nat) :
    Except AdiError Int × EngineState :=
  withPort s port fun i =>
    match pinModeToConfig mode with
    | none => (.error .InvalidPort, s)
    | some c =>
      (.ok 1, setPortRecord s i
        { configuration := c
          last_value := 0
          calibration_offset := 0
          last_digital_state := false
          direction := false })

/-- Number of samples taken by analog calibration: approximately 500 samples,
1 ms apart, per the header (lines 192-216) and the spec. -/
def CAL_SAMPLE_COUNT : Nat := 500

/-- adi_analog_calibrate: EINVAL when the port is out of range or not an
analog input (header lines 192-216).  Modelled from the spec: the 1 ms-spaced
raw samples are supplied as a sequence (the HAL collaborator); the operation
computes their arithmetic mean, stores it as the calibration offset and
returns it. -/
def adi_analog_calibrate (s : EngineState) (port : Nat)
    (samples : Fin CAL_SAMPLE_COUNT → Int) : Except AdiError Int × EngineState :=
  withPort s port fun i =>
    if (s.ports i).configuration = .E_ADI_ANALOG_IN then
      (.ok ((∑ k : Fin CAL_SAMPLE_COUNT, samples k) / (CAL_SAMPLE_COUNT : Int)),
       setPortRecord s i { s.ports i with
         calibration_offset :=
           (∑ k : Fin CAL_SAMPLE_COUNT, samples k) / (CAL_SAMPLE_COUNT : Int) })
    else (.error .NotConfigured, s)

/-- adi_analog_read: returns the raw 12-bit sample of an analog input port;
EINVAL when the port is out of range or not an analog input (header lines
218-240).  The current raw reading is supplied by the HAL collaborator. -/
def adi_analog_read (s : EngineState) (port : Nat) (raw : Int) :
    Except AdiError Int × EngineState :=
  withPort s port fun i =>
    if (s.ports i).configuration = .E_ADI_ANALOG_IN then
      (.ok raw, setPortRecord s i { s.ports i with last_value := raw })
    else (.error .NotConfigured, s)

/-- adi_analog_read_calibrated: returns the raw reading minus the stored
calibration offset; EINVAL when the port is out of range or not an analog
input (header lines 242-262). -/
def adi_analog_read_calibrated (s : EngineState) (port : Nat) (raw : Int) :
    Except AdiError Int × EngineState :=
  withPort s port fun i =>
    if (s.ports i).configuration = .E_ADI_ANALOG_IN then
      (.ok (raw - (s.ports i).calibration_offset),
       setPortRecord s i { s.ports i with last_value := raw })
    else (.error .NotConfigured, s)

/-- adi_analog_read_calibrated_HR: the calibrated reading scaled by 16 for
higher integration resolution; EINVAL when the port is out of range or not
an analog input (header lines 264-289). -/
def adi_analog_read_calibrated_HR (s : EngineState) (port : Nat) (raw : Int) :
    Except AdiError Int × EngineState :=
  withPort s port fun i =>
    if (s.ports i).configuration = .E_ADI_ANALOG_IN then
      (.ok ((raw - (s.ports i).calibration_offset) * 16),
       setPortRecord s i { s.ports i with last_value := raw })
    else (.error .NotConfigured, s)

/-- adi_digital_read: returns 1 when the digital input is HIGH and 0 when it
is LOW; EINVAL when the port is out of range or not a digital input (header
lines 291-309).  The current electrical state is supplied by the HAL. -/
def adi_digital_read (s : EngineState) (port : Nat) (input : Bool) :
    Except AdiError Int × EngineState :=
  withPort s port fun i =>
    if (s.ports i).configuration = .E_ADI_DIGITAL_IN then
      (.ok (if input then 1 else 0), s)
    else (.error .NotConfigured, s)

/-- adi_digital_get_new_press: rising-edge detector; returns 1 when the
input is HIGH and was not HIGH at the previous call, 0 otherwise; EINVAL
when the port is out of range or not a digital input (header lines 311-333).
Modelled from the spec: the per-port last_digital_state is updated to the
current input on every successful call. -/
def adi_digital_get_new_press (s : EngineState) (port : Nat) (input : Bool) :
    Except AdiError Int × EngineState :=
  withPort s port fun i =>
    if (s.ports i).configuration = .E_ADI_DIGITAL_IN then
      (.ok (if input && !(s.ports i).last_digital_state then 1 else 0),
       setPortRecord s i { s.ports i with last_digital_state := input })
    else (.error .NotConfigured, s)

/-- adi_digital_write: sets the digital output to HIGH (1) or LOW (0);
returns 1 on success, EINVAL when the port is out of range or not a digital
output (header lines 335-353). -/
def adi_digital_write (s : EngineState) (port : Nat) (value : Bool) :
    Except AdiError Int × EngineState :=
  withPort s port fun i =>
    if (s.ports i).configuration = .E_ADI_DIGITAL_OUT then
      (.ok 1, setPortRecord s i { s.ports i with last_value := if value then 1 else 0 })
    else (.error .NotConfigured, s)

/-- adi_motor_set: sets the speed of the motor on the port; returns 1 on
success, EINVAL when the port is out of range or not a motor (header lines
371-387).  Modelled from the spec: motor ports are legacy PWM ports, and the
speed is stored as the port value (a duty-cycle echo). -/
def adi_motor_set (s : EngineState) (port : Nat) (speed : Int) :
    Except AdiError Int × EngineState :=
  withPort s port fun i =>
    if (s.ports i).configuration = .E_ADI_LEGACY_PWM then
      (.ok 1, setPortRecord s i { s.ports i with last_value := speed })
    else (.error .NotConfigured, s)

/-- adi_motor_get: returns the last set speed of the motor on the port;
EINVAL when the port is out of range or not a motor (header lines 389-402). -/
def adi_motor_get (s : EngineState) (port : Nat) :
    Except AdiError Int × EngineState :=
  withPort s port fun i =>
    if (s.ports i).configuration = .E_ADI_LEGACY_PWM then
      (.ok (s.ports i).last_value, s)
    else (.error .NotConfigured, s)

/-- adi_motor_stop: stops the motor on the port, equivalent to setting speed
0 (header lines 404-417). -/
def adi_motor_stop (s : EngineState) (port : Nat) :
    Except AdiError Int × EngineState :=
  adi_motor_set s port 0

/-- A fresh LEGACY_ENCODER port record with the given direction flag. -/
def encoderPortRecord (reverse : Bool) : Port :=
  { configuration := .E_ADI_LEGACY_ENCODER
    last_value := 0
    calibration_offset := 0
    last_digital_state := false
    direction := reverse }

/-- adi_encoder_init (header lines 445-465): EINVAL on a bad port.  Modelled
from the spec: an encoder owns two adjacent ports (top = the lower port,
bottom = the next one); claiming a port already owned by an active derived
object fails PortInUse (sections 7 and 8); on success both ports are
atomically set to LEGACY_ENCODER with zeroed tick state, and the returned
adi_encoder_t handle is an int32 containing only the (lower, top) port
number. -/
def adi_encoder_init (s : EngineState) (port_top port_bottom : Nat)
    (reverse : Bool) : Except AdiError Int × EngineState :=
  match resolvePort port_top, resolvePort port_bottom with
  | some i, some j =>
    if (j : Nat) = (i : Nat) + 1 then
      if (s.ports i).inUse ∨ (s.ports j).inUse then (.error .PortInUse, s)
      else
        (.ok ((i : Nat) + 1 : Int),
         setPortRecord (setPortRecord s i (encoderPortRecord reverse)) j
           (encoderPortRecord reverse))
    else (.error .InvalidPort, s)
  | _, _ => (.error .InvalidPort, s)

/-- adi_encoder_get: returns the signed cumulative tick count; EINVAL when
the port is out of range or not configured as an encoder (header lines
427-443).  The handle is the port number of the encoder. -/
def adi_encoder_get (s : EngineState) (enc : Int) :
    Except AdiError Int × EngineState :=
  withPort s enc.toNat fun i =>
    if (s.ports i).configuration = .E_ADI_LEGACY_ENCODER then
      (.ok (s.ports i).last_value, s)
    else (.error .NotConfigured, s)

/-- adi_encoder_reset: sets the encoder value to zero without disabling the
encoder; returns 1 on success, EINVAL when the port is out of range or not
configured as an encoder (header lines 467-484). -/
def adi_encoder_reset (s : EngineState) (enc : Int) :
    Except AdiError Int × EngineState :=
  withPort s enc.toNat fun i =>
    if (s.ports i).configuration = .E_ADI_LEGACY_ENCODER then
      (.ok 1, setPortRecord s i { s.ports i with last_value := 0 })
    else (.error .NotConfigured, s)

/-- adi_encoder_shutdown: disables the encoder and voids the configuration
on its two ports, returning them to UNDEFINED; returns 1 on success, EINVAL
when the port is out of range or not configured as an encoder (header lines
486-499). -/
def adi_encoder_shutdown (s : EngineState) (enc : Int) :
    Except AdiError Int × EngineState :=
  withPort s enc.toNat fun i =>
    if (s.ports i).configuration = .E_ADI_LEGACY_ENCODER then
      if h : (i : Nat) + 1 < 8 then
        (.ok 1, setPortRecord (setPortRecord s i Port.initial) ⟨(i : Nat) + 1, h⟩ Port.initial)
      else (.ok 1, setPortRecord s i Port.initial)
    else (.error .NotConfigured, s)

/-- A fresh LEGACY_ULTRASONIC port record. -/
def ultrasonicPortRecord : Port :=
  { configuration := .E_ADI_LEGACY_ULTRASONIC
    last_value := 0
    calibration_offset := 0
    last_digital_state := false
    direction := false }

/-- adi_ultrasonic_init (header lines 528-546): EINVAL on a bad port.
Modelled from the spec (section 4, Ultrasonic subsystem): fails InvalidPort
when the echo port is not an odd port (1, 3, 5, 7, i.e. even zero-based
index), when the ping port is not the next port, or when either port is in
use; on success claims both ports as LEGACY_ULTRASONIC, and the returned
adi_ultrasonic_t handle is an int32 containing only the echo port number. -/
def adi_ultrasonic_init (s : EngineState) (port_echo port_ping : Nat) :
    Except AdiError Int × EngineState :=
  match resolvePort port_echo, resolvePort port_ping with
  | some i, some j =>
    if (i : Nat) % 2 = 0 ∧ (j : Nat) = (i : Nat) + 1 then
      if (s.ports i).inUse ∨ (s.ports j).inUse then (.error .InvalidPort, s)
      else
        (.ok ((i : Nat) + 1 : Int),
         setPortRecord (setPortRecord s i ultrasonicPortRecord) j ultrasonicPortRecord)
    else (.error .InvalidPort, s)
  | _, _ => (.error .InvalidPort, s)

/-- adi_ultrasonic_get: returns the last measured distance in centimeters;
EINVAL when the port is out of range or not configured as an ultrasonic
(header lines 509-526). -/
def adi_ultrasonic_get (s : EngineState) (ult : Int) :
    Except AdiError Int × EngineState :=
  withPort s ult.toNat fun i =>
    if (s.ports i).configuration = .E_ADI_LEGACY_ULTRASONIC then
      (.ok (s.ports i).last_value, s)
    else (.error .NotConfigured, s)

/-- adi_ultrasonic_shutdown: disables the ultrasonic and voids the
configuration on its two ports; returns 1 on success, EINVAL when the port
is out of range or not configured as an ultrasonic (header lines 548-561). -/
def adi_ultrasonic_shutdown (s : EngineState) (ult : Int) :
    Except AdiError Int × EngineState :=
  withPort s ult.toNat fun i =>
    if (s.ports i).configuration = .E_ADI_LEGACY_ULTRASONIC then
      if h : (i : Nat) + 1 < 8 then
        (.ok 1, setPortRecord (setPortRecord s i Port.initial) ⟨(i : Nat) + 1, h⟩ Port.initial)
      else (.ok 1, setPortRecord s i Port.initial)
    else (.error .NotConfigured, s)

/-! ### Helper lemmas -/

/-- An identifier outside 1-8, 97-104 and 65-72 does not resolve. -/
theorem resolvePort_eq_none (p : Nat)
    (h1 : ¬ (1 ≤ p ∧ p ≤ 8)) (h2 : ¬ (97 ≤ p ∧ p ≤ 104))
    (h3 : ¬ (65 ≤ p ∧ p ≤ 72)) : resolvePort p = none := by
  unfold resolvePort
  rw [dif_neg h1, dif_neg h2, dif_neg h3]

/-- withPort on an unresolvable identifier fails InvalidPort unchanged. -/
theorem withPort_none {α : Type} (s : EngineState) (p : Nat)
    (k : Fin 8 → Except AdiError α × EngineState) (h : resolvePort p = none) :
    withPort s p k = (.error .InvalidPort, s) := by
  unfold withPort
  rw [h]

/-- withPort on a resolvable identifier runs the operation on the index. -/
theorem withPort_some {α : Type} (s : EngineState) (p : Nat) (i : Fin 8)
    (k : Fin 8 → Except AdiError α × EngineState) (h : resolvePort p = some i) :
    withPort s p k = k i := by
  unfold withPort
  rw [h]

/-- Reading back the record just written. -/
theorem setPortRecord_same (s : EngineState) (i : Fin 8) (r : Port) :
    (setPortRecord s i r).ports i = r := by
  simp [setPortRecord]

/-- Writing one port leaves every other port record unchanged. -/
theorem setPortRecord_other (s : EngineState) (i j : Fin 8) (r : Port)
    (h : j ≠ i) : (setPortRecord s i r).ports j = s.ports j := by
  simp [setPortRecord, Function.update_noteq h]

/-! ### C1 -/

/-- C1: for every port identifier outside the integer range 1-8 and outside
the letter ranges a-h (97-104) and A-H (65-72), every ADI port operation
(port_get_config, port_get_value, port_set_config, port_set_value, pin_mode,
the analog operations, the digital operations and the motor operations)
returns the InvalidPort error — surfacing at the C level as the PROS_ERR
sentinel with errno EINVAL — and leaves the engine state (all 8 port
records) unchanged. -/
theorem C1_invalid_port_rejects_and_preserves_state (s : EngineState) (p : Nat)
    (h1 : ¬ (1 ≤ p ∧ p ≤ 8)) (h2 : ¬ (97 ≤ p ∧ p ≤ 104))
    (h3 : ¬ (65 ≤ p ∧ p ≤ 72)) :
    adi_port_get_config s p = (.error .InvalidPort, s) ∧
    adi_port_get_value s p = (.error .InvalidPort, s) ∧
    (∀ t, adi_port_set_config s p t = (.error .InvalidPort, s)) ∧
    (∀ v, adi_port_set_value s p v = (.error .InvalidPort, s)) ∧
    (∀ m, adi_pin_mode s p m = (.error .InvalidPort, s)) ∧
    (∀ smp, adi_analog_calibrate s p smp = (.error .InvalidPort, s)) ∧
    (∀ r, adi_analog_read s p r = (.error .InvalidPort, s)) ∧
    (∀ r, adi_analog_read_calibrated s p r = (.error .InvalidPort, s)) ∧
    (∀ r, adi_analog_read_calibrated_HR s p r = (.error .InvalidPort, s)) ∧
    (∀ b, adi_digital_read s p b = (.error .InvalidPort, s)) ∧
    (∀ b, adi_digital_get_new_press s p b = (.error .InvalidPort, s)) ∧
    (∀ b, adi_digital_write s p b = (.error .InvalidPort, s)) ∧
    (∀ v, adi_motor_set s p v = (.error .InvalidPort, s)) ∧
    adi_motor_get s p = (.error .InvalidPort, s) ∧
    adi_motor_stop s p = (.error .InvalidPort, s) ∧
    cValue (Except.error AdiError.InvalidPort) = PROS_ERR ∧
    errnoOf AdiError.InvalidPort = EINVAL := by
  have hr : resolvePort p = none := resolvePort_eq_none p h1 h2 h3
  refine ⟨?_, ?_, ?_, ?_, ?_, ?_, ?_, ?_, ?_, ?_, ?_, ?_, ?_, ?_, ?_, rfl, rfl⟩ <;>
    first
      | exact withPort_none s p _ hr
      | intro x
        exact withPort_none s p _ hr

/-- Witness for C1 at the concrete invalid identifier 0. -/
theorem C1_witness :
    adi_port_get_config EngineState.initial 0 =
      (.error .InvalidPort, EngineState.initial) :=
  (C1_invalid_port_rejects_and_preserves_state EngineState.initial 0
    (by decide) (by decide) (by decide)).1

/-! ### C2 -/

/-- C2: for every valid port identifier and every configuration type, setting
the configuration and then immediately getting it returns that type; with no
prior set_config (the startup engine state) get_config returns
E_ADI_TYPE_UNDEFINED. -/
theorem C2_set_config_then_get_config (s : EngineState) (p : Nat) (i : Fin 8)
    (t : adi_port_config_e) (hp : resolvePort p = some i) :
    (adi_port_get_config (adi_port_set_config s p t).2 p).1 = .ok t ∧
    (adi_port_get_config EngineState.initial p).1 = .ok .E_ADI_TYPE_UNDEFINED := by
  constructor
  · rw [adi_port_set_config, withPort_some s p i _ hp]
    rw [adi_port_get_config,
      withPort_some (setPortRecord s i _) p i _ hp, setPortRecord_same]
  · rw [adi_port_get_config, withPort_some EngineState.initial p i _ hp]
    rfl

/-- Witness for C2 at port 3 and configuration ANALOG_IN. -/
theorem C2_witness :
    (adi_port_get_config
      (adi_port_set_config EngineState.initial 3 .E_ADI_ANALOG_IN).2 3).1 =
      .ok .E_ADI_ANALOG_IN :=
  (C2_set_config_then_get_config EngineState.initial 3 ⟨2, by omega⟩
    .E_ADI_ANALOG_IN (by decide)).1

/-! ### C3 -/

/-- C3: for every valid DIGITAL_IN port, digital_get_new_press is a
rising-edge detector: a call returns 1 exactly when the input is HIGH and the
stored last_digital_state is LOW, and the per-port last_digital_state is
updated to the current input on every call.  Consequently, starting from a
LOW last state and an input held HIGH, two consecutive calls return 1 then
0, further calls while HIGH keep returning 0, and after the input goes LOW
and HIGH again the call returns 1 once more. -/
theorem C3_digital_get_new_press_rising_edge (s : EngineState) (p : Nat)
    (i : Fin 8) (hp : resolvePort p = some i)
    (hc : (s.ports i).configuration = .E_ADI_DIGITAL_IN) :
    (∀ inp, (adi_digital_get_new_press s p inp).1 =
      .ok (if inp && !(s.ports i).last_digital_state then 1 else 0)) ∧
    (∀ inp,
      (((adi_digital_get_new_press s p inp).2).ports i).last_digital_state = inp) ∧
    ((s.ports i).last_digital_state = false →
      (adi_digital_get_new_press s p true).1 = .ok 1 ∧
      (adi_digital_get_new_press
        (adi_digital_get_new_press s p true).2 p true).1 = .ok 0 ∧
      (adi_digital_get_new_press
        (adi_digital_get_new_press
          (adi_digital_get_new_press s p true).2 p true).2 p true).1 = .ok 0 ∧
      (adi_digital_get_new_press
        (adi_digital_get_new_press
          (adi_digital_get_new_press s p true).2 p false).2 p true).1 = .ok 1) := by
  have step : ∀ (s' : EngineState), (s'.ports i).configuration = .E_ADI_DIGITAL_IN →
      ∀ inp, adi_digital_get_new_press s' p inp =
        (.ok (if inp && !(s'.ports i).last_digital_state then 1 else 0),
         setPortRecord s' i { s'.ports i with last_digital_state := inp }) := by
    intro s' hc' inp
    rw [adi_digital_get_new_press, withPort_some s' p i _ hp, if_pos hc']
  have cfg_pres : ∀ (s' : EngineState),
      (s'.ports i).configuration = .E_ADI_DIGITAL_IN → ∀ inp,
      (((adi_digital_get_new_press s' p inp).2).ports i).configuration =
        .E_ADI_DIGITAL_IN := by
    intro s' hc' inp
    rw [step s' hc' inp, setPortRecord_same]
    exact hc'
  refine ⟨fun inp => by rw [step s hc inp], fun inp => ?_, fun hlow => ?_⟩
  · rw [step s hc inp, setPortRecord_same]
  · have h1 := step s hc true
    have hc1 := cfg_pres s hc true
    have hst1 : (((adi_digital_get_new_press s p true).2).ports i).last_digital_state =
        true := by rw [h1, setPortRecord_same]
    have h2 := step _ hc1 true
    have hc2 := cfg_pres _ hc1 true
    have hst2 : (((adi_digital_get_new_press
        (adi_digital_get_new_press s p true).2 p true).2).ports i).last_digital_state =
        true := by rw [h2, setPortRecord_same]
    have h2f := step _ hc1 false
    have hc2f := cfg_pres _ hc1 false
    have hst2f : (((adi_digital_get_new_press
        (adi_digital_get_new_press s p true).2 p false).2).ports i).last_digital_state =
        false := by rw [h2f, setPortRecord_same]
    have h3 := step _ hc2 true
    have h3f := step _ hc2f true
    refine ⟨?_, ?_, ?_, ?_⟩
    · rw [h1, hlow]
      rfl
    · rw [h2, hst1]
      rfl
    · rw [h3, hst2]
      rfl
    · rw [h3f, hst2f]
      rfl

/-- Witness for C3: port 2 configured DIGITAL_IN on the startup state, with
the input held HIGH, returns a new press on the first call. -/
theorem C3_witness :
    (adi_digital_get_new_press
      (adi_port_set_config EngineState.initial 2 .E_ADI_DIGITAL_IN).2 2 true).1 =
      .ok 1 :=
  ((C3_digital_get_new_press_rising_edge
      (adi_port_set_config EngineState.initial 2 .E_ADI_DIGITAL_IN).2 2 ⟨1, by omega⟩
      (by decide) (by decide)).2.2 (by decide)).1

/-! ### C4 -/

/-- C4: for every valid encoder handle (a port configured LEGACY_ENCODER),
encoder_reset succeeds, an immediately following encoder_get returns 0
whatever tick count had accumulated before, and the reset leaves the port
configured LEGACY_ENCODER (the encoder is not disabled). -/
theorem C4_encoder_reset_then_get_zero (s : EngineState) (enc : Int) (i : Fin 8)
    (hp : resolvePort enc.toNat = some i)
    (hc : (s.ports i).configuration = .E_ADI_LEGACY_ENCODER) :
    (adi_encoder_reset s enc).1 = .ok 1 ∧
    (adi_encoder_get (adi_encoder_reset s enc).2 enc).1 = .ok 0 ∧
    (((adi_encoder_reset s enc).2).ports i).configuration =
      .E_ADI_LEGACY_ENCODER := by
  have hreset : adi_encoder_reset s enc =
      (.ok 1, setPortRecord s i { s.ports i with last_value := 0 }) := by
    rw [adi_encoder_reset, withPort_some s enc.toNat i _ hp, if_pos hc]
  have hrec : (((adi_encoder_reset s enc).2).ports i) =
      { s.ports i with last_value := 0 } := by
    rw [hreset, setPortRecord_same]
  have hc2 : (((adi_encoder_reset s enc).2).ports i).configuration =
      .E_ADI_LEGACY_ENCODER := by
    rw [hrec]
    exact hc
  refine ⟨by rw [hreset], ?_, hc2⟩
  rw [adi_encoder_get, withPort_some _ enc.toNat i _ hp, if_pos hc2, hrec]

/-- A sample engine state with an encoder on ports 1-2 holding 42 ticks. -/
def encoderSampleState : EngineState :=
  setPortRecord
    (setPortRecord EngineState.initial ⟨0, by omega⟩
      { configuration := .E_ADI_LEGACY_ENCODER
        last_value := 42
        calibration_offset := 0
        last_digital_state := false
        direction := false })
    ⟨1, by omega⟩
    { configuration := .E_ADI_LEGACY_ENCODER
      last_value := 0
      calibration_offset := 0
      last_digital_state := false
      direction := false }

/-- Witness for C4: resetting the sample encoder (handle 1, 42 accumulated
ticks) and reading it back yields 0. -/
theorem C4_witness :
    (adi_encoder_get (adi_encoder_reset encoderSampleState 1).2 1).1 = .ok 0 :=
  (C4_encoder_reset_then_get_zero encoderSampleState 1 ⟨0, by omega⟩
    (by decide) (by decide)).2.1

/-! ### C5 -/

/-- C5: for every valid ANALOG_IN port whose raw value is held constant at v,
analog_calibrate computes the arithmetic mean of the 500 one-millisecond
samples — which is v — stores it as the calibration offset and returns it,
and a subsequent analog_read_calibrated returns raw minus offset, hence 0
while the raw value remains v. -/
theorem C5_calibrate_constant_value (s : EngineState) (p : Nat) (i : Fin 8)
    (v : Int) (hp : resolvePort p = some i)
    (hc : (s.ports i).configuration = .E_ADI_ANALOG_IN) :
    (adi_analog_calibrate s p (fun _ => v)).1 = .ok v ∧
    (((adi_analog_calibrate s p (fun _ => v)).2).ports i).calibration_offset = v ∧
    (adi_analog_read_calibrated
      (adi_analog_calibrate s p (fun _ => v)).2 p v).1 = .ok 0 := by
  have hmean : (∑ _k : Fin CAL_SAMPLE_COUNT, v) / (CAL_SAMPLE_COUNT : Int) = v := by
    rw [Finset.sum_const, Finset.card_univ, Fintype.card_fin, nsmul_eq_mul]
    show ((500 : ℕ) : Int) * v / ((500 : ℕ) : Int) = v
    norm_num
  have hcal : adi_analog_calibrate s p (fun _ => v) =
      (.ok v, setPortRecord s i { s.ports i with calibration_offset := v }) := by
    rw [adi_analog_calibrate, withPort_some s p i _ hp, if_pos hc, hmean]
  have hrec : (((adi_analog_calibrate s p (fun _ => v)).2).ports i) =
      { s.ports i with calibration_offset := v } := by
    rw [hcal, setPortRecord_same]
  have hc2 : (((adi_analog_calibrate s p (fun _ => v)).2).ports i).configuration =
      .E_ADI_ANALOG_IN := by
    rw [hrec]
    exact hc
  refine ⟨by rw [hcal], by rw [hrec], ?_⟩
  rw [adi_analog_read_calibrated, withPort_some _ p i _ hp, if_pos hc2, hrec]
  simp

/-- Witness for C5: port 1 configured ANALOG_IN and held at raw value 1234
calibrates to offset 1234. -/
theorem C5_witness :
    (adi_analog_calibrate
      (adi_port_set_config EngineState.initial 1 .E_ADI_ANALOG_IN).2 1
      (fun _ => 1234)).1 = .ok 1234 :=
  (C5_calibrate_constant_value
    (adi_port_set_config EngineState.initial 1 .E_ADI_ANALOG_IN).2 1 ⟨0, by omega⟩
    1234 (by decide) (by decide)).1

/-- adi_encoder_init with both identifiers resolved, in reduced form. -/
theorem adi_encoder_init_resolved (s : EngineState) (top bottom : Nat)
    (i j : Fin 8) (rev : Bool) (hi : resolvePort top = some i)
    (hj : resolvePort bottom = some j) :
    adi_encoder_init s top bottom rev =
      if (j : Nat) = (i : Nat) + 1 then
        if (s.ports i).inUse ∨ (s.ports j).inUse then (.error .PortInUse, s)
        else (.ok ((i : Nat) + 1 : Int),
          setPortRecord (setPortRecord s i (encoderPortRecord rev)) j
            (encoderPortRecord rev))
      else (.error .InvalidPort, s) := by
  rw [adi_encoder_init, hi, hj]

/-- adi_ultrasonic_init with both identifiers resolved, in reduced form. -/
theorem adi_ultrasonic_init_resolved (s : EngineState) (echo ping : Nat)
    (i j : Fin 8) (hi : resolvePort echo = some i)
    (hj : resolvePort ping = some j) :
    adi_ultrasonic_init s echo ping =
      if (i : Nat) % 2 = 0 ∧ (j : Nat) = (i : Nat) + 1 then
        if (s.ports i).inUse ∨ (s.ports j).inUse then (.error .InvalidPort, s)
        else (.ok ((i : Nat) + 1 : Int),
          setPortRecord (setPortRecord s i ultrasonicPortRecord) j
            ultrasonicPortRecord)
      else (.error .InvalidPort, s) := by
  rw [adi_ultrasonic_init, hi, hj]

/-! ### C6 -/

/-- C6: ultrasonic_init fails with InvalidPort whenever the echo port is not
one of the odd ports 1, 3, 5, 7 (that is, its zero-based index is odd),
whenever the ping port is not the port right after the echo port, whenever
either identifier does not resolve at all, or when either port is already in
use; on success it claims both ports as LEGACY_ULTRASONIC. -/
theorem C6_ultrasonic_init_validity (s : EngineState) (echo ping : Nat)
    (i j : Fin 8) (hi : resolvePort echo = some i)
    (hj : resolvePort ping = some j) :
    ((i : Nat) % 2 = 1 →
      adi_ultrasonic_init s echo ping = (.error .InvalidPort, s)) ∧
    ((j : Nat) ≠ (i : Nat) + 1 →
      adi_ultrasonic_init s echo ping = (.error .InvalidPort, s)) ∧
    ((s.ports i).inUse ∨ (s.ports j).inUse →
      (adi_ultrasonic_init s echo ping).1 = .error .InvalidPort ∧
      (adi_ultrasonic_init s echo ping).2 = s) ∧
    ((i : Nat) % 2 = 0 → (j : Nat) = (i : Nat) + 1 →
      ¬ (s.ports i).inUse → ¬ (s.ports j).inUse →
      (adi_ultrasonic_init s echo ping).1 = .ok ((i : Nat) + 1 : Int) ∧
      (((adi_ultrasonic_init s echo ping).2).ports i).configuration =
        .E_ADI_LEGACY_ULTRASONIC ∧
      (((adi_ultrasonic_init s echo ping).2).ports j).configuration =
        .E_ADI_LEGACY_ULTRASONIC) ∧
    (∀ e q (s' : EngineState), resolvePort e = none →
      adi_ultrasonic_init s' e q = (.error .InvalidPort, s')) ∧
    (∀ e q (s' : EngineState), resolvePort q = none →
      adi_ultrasonic_init s' e q = (.error .InvalidPort, s')) := by
  have hred := adi_ultrasonic_init_resolved s echo ping i j hi hj
  refine ⟨?_, ?_, ?_, ?_, ?_, ?_⟩
  · intro hodd
    rw [hred, if_neg (by omega)]
  · intro hadj
    rw [hred, if_neg (by tauto)]
  · intro huse
    by_cases hcond : (i : Nat) % 2 = 0 ∧ (j : Nat) = (i : Nat) + 1
    · rw [hred, if_pos hcond, if_pos huse]
      exact ⟨rfl, rfl⟩
    · rw [hred, if_neg hcond]
      exact ⟨rfl, rfl⟩
  · intro heven hadj hfi hfj
    have hji : j ≠ i := by
      intro h
      rw [h] at hadj
      omega
    rw [hred, if_pos ⟨heven, hadj⟩, if_neg (by tauto)]
    refine ⟨rfl, ?_, ?_⟩
    · rw [setPortRecord_other _ j i _ (by exact fun h => hji h.symm),
        setPortRecord_same]
      rfl
    · rw [setPortRecord_same]
      rfl
  · intro e q s' h
    rw [adi_ultrasonic_init, h]
  · intro e q s' h
    rw [adi_ultrasonic_init, h]
    rcases resolvePort e with _ | i' <;> rfl

/-- Witness for C6: on the startup state, ultrasonic_init with echo on port 2
(an even port) fails, and ultrasonic_init on ports 1 and 2 succeeds. -/
theorem C6_witness :
    adi_ultrasonic_init EngineState.initial 2 3 =
      (.error .InvalidPort, EngineState.initial) :=
  (C6_ultrasonic_init_validity EngineState.initial 2 3 ⟨1, by omega⟩ ⟨2, by omega⟩
    (by decide) (by decide)).1 (by decide)

/-! ### C7 -/

/-- C7: encoder_init on a pair of valid adjacent ports of which one is
already claimed by an active encoder fails with PortInUse and leaves the
whole engine state — in particular the original encoder's port
configurations and accumulated tick count — unchanged; on success (both
ports free) it atomically claims both ports, setting both to LEGACY_ENCODER
with zeroed ticks, and returns the handle of the top port. -/
theorem C7_encoder_init_respects_claims (s : EngineState) (top bottom : Nat)
    (i j : Fin 8) (rev : Bool) (hi : resolvePort top = some i)
    (hj : resolvePort bottom = some j) (hadj : (j : Nat) = (i : Nat) + 1) :
    ((s.ports i).configuration = .E_ADI_LEGACY_ENCODER ∨
      (s.ports j).configuration = .E_ADI_LEGACY_ENCODER →
      adi_encoder_init s top bottom rev = (.error .PortInUse, s)) ∧
    (¬ (s.ports i).inUse → ¬ (s.ports j).inUse →
      (adi_encoder_init s top bottom rev).1 = .ok ((i : Nat) + 1 : Int) ∧
      (((adi_encoder_init s top bottom rev).2).ports i) = encoderPortRecord rev ∧
      (((adi_encoder_init s top bottom rev).2).ports j) = encoderPortRecord rev) := by
  have hji : j ≠ i := by
    intro h
    rw [h] at hadj
    omega
  have hred := adi_encoder_init_resolved s top bottom i j rev hi hj
  constructor
  · intro hclaim
    have huse : (s.ports i).inUse ∨ (s.ports j).inUse := by
      rcases hclaim with h | h
      · exact Or.inl (Or.inl h)
      · exact Or.inr (Or.inl h)
    rw [hred, if_pos hadj, if_pos huse]
  · intro hfi hfj
    rw [hred, if_pos hadj, if_neg (by tauto)]
    refine ⟨rfl, ?_, ?_⟩
    · rw [setPortRecord_other _ j i _ (by exact fun h => hji h.symm),
        setPortRecord_same]
    · rw [setPortRecord_same]

/-- Witness for C7: initializing a second encoder over port 2 (the bottom
port of the sample encoder, which holds 42 ticks) fails PortInUse and the
state is untouched. -/
theorem C7_witness :
    adi_encoder_init encoderSampleState 2 3 false =
      (.error .PortInUse, encoderSampleState) :=
  (C7_encoder_init_respects_claims encoderSampleState 2 3 ⟨1, by omega⟩
    ⟨2, by omega⟩ false (by decide) (by decide) (by decide)).1
    (Or.inl (by decide))

/-! ### C8 -/

/-- Operations routed through the boundary depend on the identifier only
through its resolution. -/
theorem withPort_congr {α : Type} (s : EngineState) (p q : Nat)
    (k : Fin 8 → Except AdiError α × EngineState)
    (h : resolvePort p = resolvePort q) : withPort s p k = withPort s q k := by
  unfold withPort
  rw [h]

/-- C8: port identification is alias-invariant.  For every k in 0..7 the
identifiers k+1 (integer), 97+k (lowercase letter) and 65+k (uppercase
letter) resolve to the same zero-based index k; any two identifiers with
equal resolution give every ADI port operation the same result and the same
state change; and an identifier that does not resolve fails with
InvalidPort. -/
theorem C8_port_alias_invariance :
    (∀ k : Nat, ∀ hk : k < 8,
      resolvePort (k + 1) = some ⟨k, hk⟩ ∧
      resolvePort (97 + k) = some ⟨k, hk⟩ ∧
      resolvePort (65 + k) = some ⟨k, hk⟩) ∧
    (∀ (s : EngineState) (p q : Nat), resolvePort p = resolvePort q →
      adi_port_get_config s p = adi_port_get_config s q ∧
      adi_port_get_value s p = adi_port_get_value s q ∧
      (∀ t, adi_port_set_config s p t = adi_port_set_config s q t) ∧
      (∀ v, adi_port_set_value s p v = adi_port_set_value s q v) ∧
      (∀ m, adi_pin_mode s p m = adi_pin_mode s q m) ∧
      (∀ smp, adi_analog_calibrate s p smp = adi_analog_calibrate s q smp) ∧
      (∀ r, adi_analog_read s p r = adi_analog_read s q r) ∧
      (∀ r, adi_analog_read_calibrated s p r = adi_analog_read_calibrated s q r) ∧
      (∀ r, adi_analog_read_calibrated_HR s p r =
        adi_analog_read_calibrated_HR s q r) ∧
      (∀ b, adi_digital_read s p b = adi_digital_read s q b) ∧
      (∀ b, adi_digital_get_new_press s p b = adi_digital_get_new_press s q b) ∧
      (∀ b, adi_digital_write s p b = adi_digital_write s q b) ∧
      (∀ v, adi_motor_set s p v = adi_motor_set s q v) ∧
      adi_motor_get s p = adi_motor_get s q ∧
      adi_motor_stop s p = adi_motor_stop s q) ∧
    (∀ (s : EngineState) (p : Nat), resolvePort p = none →
      adi_port_get_config s p = (.error .InvalidPort, s)) := by
  refine ⟨?_, ?_, ?_⟩
  · intro k hk
    refine ⟨?_, ?_, ?_⟩
    · unfold resolvePort
      rw [dif_pos (by omega : 1 ≤ k + 1 ∧ k + 1 ≤ 8)]
      simp only [Option.some.injEq, Fin.mk.injEq]
      omega
    · unfold resolvePort
      rw [dif_neg (by omega : ¬ (1 ≤ 97 + k ∧ 97 + k ≤ 8)),
        dif_pos (by omega : 97 ≤ 97 + k ∧ 97 + k ≤ 104)]
      simp only [Option.some.injEq, Fin.mk.injEq]
      omega
    · unfold resolvePort
      rw [dif_neg (by omega : ¬ (1 ≤ 65 + k ∧ 65 + k ≤ 8)),
        dif_neg (by omega : ¬ (97 ≤ 65 + k ∧ 65 + k ≤ 104)),
        dif_pos (by omega : 65 ≤ 65 + k ∧ 65 + k ≤ 72)]
      simp only [Option.some.injEq, Fin.mk.injEq]
      omega
  · intro s p q h
    refine ⟨?_, ?_, ?_, ?_, ?_, ?_, ?_, ?_, ?_, ?_, ?_, ?_, ?_, ?_, ?_⟩ <;>
      first
        | exact withPort_congr s p q _ h
        | intro x
          exact withPort_congr s p q _ h
  · intro s p h
    exact withPort_none s p _ h

/-- Witness for C8: the identifiers 1, 97 (letter a) and 65 (letter A) all
resolve to index 0. -/
theorem C8_witness :
    resolvePort (0 + 1) = some ⟨0, by omega⟩ ∧
    resolvePort (97 + 0) = some ⟨0, by omega⟩ ∧
    resolvePort (65 + 0) = some ⟨0, by omega⟩ :=
  C8_port_alias_invariance.1 0 (by omega)

/-! ### C9 -/

/-- C9: reconfiguring a valid port with set_config always succeeds and
resets exactly that port's dependent state: afterwards the port record holds
the new configuration (the single active configuration) with zeroed value,
zeroed calibration offset and cleared last digital state, while every other
port record is untouched. -/
theorem C9_set_config_resets_dependent_state (s : EngineState) (p : Nat)
    (i : Fin 8) (t : adi_port_config_e) (hp : resolvePort p = some i) :
    (adi_port_set_config s p t).1 = .ok 1 ∧
    ((adi_port_set_config s p t).2).ports i =
      { configuration := t
        last_value := 0
        calibration_offset := 0
        last_digital_state := false
        direction := false } ∧
    (∀ j : Fin 8, j ≠ i →
      ((adi_port_set_config s p t).2).ports j = s.ports j) := by
  have h : adi_port_set_config s p t =
      (.ok 1, setPortRecord s i
        { configuration := t
          last_value := 0
          calibration_offset := 0
          last_digital_state := false
          direction := false }) := by
    rw [adi_port_set_config, withPort_some s p i _ hp]
  refine ⟨by rw [h], by rw [h, setPortRecord_same], fun j hj => ?_⟩
  rw [h]
  exact setPortRecord_other s i j _ hj

/-- Witness for C9: reconfiguring port 5 of the sample encoder state as
DIGITAL_IN succeeds. -/
theorem C9_witness :
    (adi_port_set_config encoderSampleState 5 .E_ADI_DIGITAL_IN).1 = .ok 1 :=
  (C9_set_config_resets_dependent_state encoderSampleState 5 ⟨4, by omega⟩
    .E_ADI_DIGITAL_IN (by decide)).1

/-! ### C10 -/

/-- A successful encoder_init resolves both identifiers and returns the
port number of the top (lower) port as the handle. -/
theorem encoder_init_ok_handle (s : EngineState) (top bottom : Nat)
    (rev : Bool) (h : Int)
    (hok : (adi_encoder_init s top bottom rev).1 = .ok h) :
    ∃ i j : Fin 8, resolvePort top = some i ∧ resolvePort bottom = some j ∧
      h = ((i : Nat) + 1 : Int) := by
  rcases hti : resolvePort top with _ | i
  · rw [adi_encoder_init, hti] at hok
    simp at hok
  rcases htj : resolvePort bottom with _ | j
  · rw [adi_encoder_init, hti, htj] at hok
    simp at hok
  rw [adi_encoder_init_resolved s top bottom i j rev hti htj] at hok
  split_ifs at hok with h1 h2
  all_goals simp at hok
  exact ⟨i, j, rfl, rfl, hok.symm⟩

/-- A successful ultrasonic_init resolves both identifiers and returns the
port number of the echo port as the handle. -/
theorem ultrasonic_init_ok_handle (s : EngineState) (echo ping : Nat) (h : Int)
    (hok : (adi_ultrasonic_init s echo ping).1 = .ok h) :
    ∃ i j : Fin 8, resolvePort echo = some i ∧ resolvePort ping = some j ∧
      h = ((i : Nat) + 1 : Int) := by
  rcases hti : resolvePort echo with _ | i
  · rw [adi_ultrasonic_init, hti] at hok
    simp at hok
  rcases htj : resolvePort ping with _ | j
  · rw [adi_ultrasonic_init, hti, htj] at hok
    simp at hok
  rw [adi_ultrasonic_init_resolved s echo ping i j hti htj] at hok
  split_ifs at hok with h1 h2
  all_goals simp at hok
  exact ⟨i, j, rfl, rfl, hok.symm⟩

/-- C10: encoder and ultrasonic handles are transparent: a successful
encoder_init or ultrasonic_init returns an int32 holding only the (top /
echo) port number, the validity of each of the five handle-consuming
operations (encoder_get, encoder_reset, encoder_shutdown, ultrasonic_get,
ultrasonic_shutdown) is determined solely by the current configuration of
the referenced port, a handle used after shutdown fails with errno EINVAL,
and re-initializing the same ports yields an equal handle value, for both
handle types. -/
theorem C10_handles_are_transparent :
    (∀ (s : EngineState) (top bottom : Nat) (i j : Fin 8) (rev : Bool) (h : Int),
      resolvePort top = some i → resolvePort bottom = some j →
      (adi_encoder_init s top bottom rev).1 = .ok h →
      h = ((i : Nat) + 1 : Int)) ∧
    (∀ (s : EngineState) (enc : Int) (i : Fin 8), resolvePort enc.toNat = some i →
      (adi_encoder_get s enc).1 =
        (if (s.ports i).configuration = .E_ADI_LEGACY_ENCODER
          then .ok (s.ports i).last_value else .error .NotConfigured)) ∧
    (∀ (s : EngineState) (enc : Int) (i : Fin 8), resolvePort enc.toNat = some i →
      ((adi_encoder_reset s enc).1 = .ok 1 ↔
        (s.ports i).configuration = .E_ADI_LEGACY_ENCODER)) ∧
    (∀ (s : EngineState) (enc : Int) (i : Fin 8), resolvePort enc.toNat = some i →
      ((adi_encoder_shutdown s enc).1 = .ok 1 ↔
        (s.ports i).configuration = .E_ADI_LEGACY_ENCODER)) ∧
    (∀ (s : EngineState) (ult : Int) (i : Fin 8), resolvePort ult.toNat = some i →
      (adi_ultrasonic_get s ult).1 =
        (if (s.ports i).configuration = .E_ADI_LEGACY_ULTRASONIC
          then .ok (s.ports i).last_value else .error .NotConfigured)) ∧
    (∀ (s : EngineState) (enc : Int) (i : Fin 8), resolvePort enc.toNat = some i →
      (adi_encoder_shutdown s enc).1 = .ok 1 →
      (adi_encoder_get (adi_encoder_shutdown s enc).2 enc).1 =
        .error .NotConfigured ∧ errnoOf .NotConfigured = EINVAL) ∧
    (∀ (s t : EngineState) (top bottom : Nat) (rev rev' : Bool) (h1 h2 : Int),
      (adi_encoder_init s top bottom rev).1 = .ok h1 →
      (adi_encoder_init t top bottom rev').1 = .ok h2 → h1 = h2) ∧
    (∀ (s : EngineState) (echo ping : Nat) (i j : Fin 8) (h : Int),
      resolvePort echo = some i → resolvePort ping = some j →
      (adi_ultrasonic_init s echo ping).1 = .ok h →
      h = ((i : Nat) + 1 : Int)) ∧
    (∀ (s : EngineState) (ult : Int) (i : Fin 8), resolvePort ult.toNat = some i →
      ((adi_ultrasonic_shutdown s ult).1 = .ok 1 ↔
        (s.ports i).configuration = .E_ADI_LEGACY_ULTRASONIC)) ∧
    (∀ (s : EngineState) (ult : Int) (i : Fin 8), resolvePort ult.toNat = some i →
      (adi_ultrasonic_shutdown s ult).1 = .ok 1 →
      (adi_ultrasonic_get (adi_ultrasonic_shutdown s ult).2 ult).1 =
        .error .NotConfigured ∧ errnoOf .NotConfigured = EINVAL) ∧
    (∀ (s t : EngineState) (echo ping : Nat) (h1 h2 : Int),
      (adi_ultrasonic_init s echo ping).1 = .ok h1 →
      (adi_ultrasonic_init t echo ping).1 = .ok h2 → h1 = h2) := by
  refine ⟨?_, ?_, ?_, ?_, ?_, ?_, ?_, ?_, ?_, ?_, ?_⟩
  · intro s top bottom i j rev h hi hj hok
    obtain ⟨i', j', hi', hj', hh⟩ := encoder_init_ok_handle s top bottom rev h hok
    rw [hi] at hi'
    rw [Option.some.inj hi']
    exact hh
  · intro s enc i hp
    rw [adi_encoder_get, withPort_some s _ i _ hp]
    split_ifs <;> rfl
  · intro s enc i hp
    rw [adi_encoder_reset, withPort_some s _ i _ hp]
    split_ifs with hc <;> simp [hc]
  · intro s enc i hp
    rw [adi_encoder_shutdown, withPort_some s _ i _ hp]
    split_ifs with hc h8 <;> simp [hc]
  · intro s ult i hp
    rw [adi_ultrasonic_get, withPort_some s _ i _ hp]
    split_ifs <;> rfl
  · intro s enc i hp hok
    have hc : (s.ports i).configuration = .E_ADI_LEGACY_ENCODER := by
      by_contra hcn
      rw [adi_encoder_shutdown, withPort_some s _ i _ hp, if_neg hcn] at hok
      simp at hok
    have hs2 : (((adi_encoder_shutdown s enc).2).ports i) = Port.initial := by
      rw [adi_encoder_shutdown, withPort_some s _ i _ hp, if_pos hc]
      split_ifs with h8
      · show ((setPortRecord (setPortRecord s i Port.initial)
          ⟨(i : Nat) + 1, h8⟩ Port.initial).ports i) = Port.initial
        rw [setPortRecord_other _ _ i _
            (Fin.ne_of_val_ne (show (i : Nat) ≠ (i : Nat) + 1 by omega)),
          setPortRecord_same]
      · show ((setPortRecord s i Port.initial).ports i) = Port.initial
        rw [setPortRecord_same]
    refine ⟨?_, rfl⟩
    rw [adi_encoder_get, withPort_some _ _ i _ hp,
      if_neg (by rw [hs2]; decide)]
  · intro s t top bottom rev rev' h1 h2 hok1 hok2
    obtain ⟨i1, j1, hi1, hj1, hh1⟩ := encoder_init_ok_handle s top bottom rev h1 hok1
    obtain ⟨i2, j2, hi2, hj2, hh2⟩ := encoder_init_ok_handle t top bottom rev' h2 hok2
    rw [hi1] at hi2
    rw [hh1, hh2, Option.some.inj hi2]
  · intro s echo ping i j h hi hj hok
    obtain ⟨i', j', hi', hj', hh⟩ := ultrasonic_init_ok_handle s echo ping h hok
    rw [hi] at hi'
    rw [Option.some.inj hi']
    exact hh
  · intro s ult i hp
    rw [adi_ultrasonic_shutdown, withPort_some s _ i _ hp]
    split_ifs with hc h8 <;> simp [hc]
  · intro s ult i hp hok
    have hc : (s.ports i).configuration = .E_ADI_LEGACY_ULTRASONIC := by
      by_contra hcn
      rw [adi_ultrasonic_shutdown, withPort_some s _ i _ hp, if_neg hcn] at hok
      simp at hok
    have hs2 : (((adi_ultrasonic_shutdown s ult).2).ports i) = Port.initial := by
      rw [adi_ultrasonic_shutdown, withPort_some s _ i _ hp, if_pos hc]
      split_ifs with h8
      · show ((setPortRecord (setPortRecord s i Port.initial)
          ⟨(i : Nat) + 1, h8⟩ Port.initial).ports i) = Port.initial
        rw [setPortRecord_other _ _ i _
            (Fin.ne_of_val_ne (show (i : Nat) ≠ (i : Nat) + 1 by omega)),
          setPortRecord_same]
      · show ((setPortRecord s i Port.initial).ports i) = Port.initial
        rw [setPortRecord_same]
    refine ⟨?_, rfl⟩
    rw [adi_ultrasonic_get, withPort_some _ _ i _ hp,
      if_neg (by rw [hs2]; decide)]
  · intro s t echo ping h1 h2 hok1 hok2
    obtain ⟨i1, j1, hi1, hj1, hh1⟩ := ultrasonic_init_ok_handle s echo ping h1 hok1
    obtain ⟨i2, j2, hi2, hj2, hh2⟩ := ultrasonic_init_ok_handle t echo ping h2 hok2
    rw [hi1] at hi2
    rw [hh1, hh2, Option.some.inj hi2]

/-- Witness for C10: initializing an encoder on ports 1 and 2 of the startup
state returns the handle 1, the top port number. -/
theorem C10_witness :
    (1 : Int) = ((0 : Nat) + 1 : Int) :=
  C10_handles_are_transparent.1 EngineState.initial 1 2 ⟨0, by omega⟩
    ⟨1, by omega⟩ false 1 (by decide) (by decide) rfl

end PROS
